import Mathlib

/-!
Shallow embedding of the pycu_interface core (device/context/stream/memory
management layer) and proofs about the claims of its specification.

The Python sources embedded here are: dev_ptr.py (Device_Ptr), cuctx.py
(cuCtx), device.py (Device), devices.py (Devices).  The native CUDA
capabilities (cu_memcpy_*, cu_memset, cu_iadd_vec, cu_transpose, cu_conj, ...)
are not part of the repository sources; where a claim needs their behaviour
they are modelled from the spec (each such definition says so in its doc
comment).  Machine integers do not overflow in the Python layer (Python ints
are unbounded), so byte counts are Nat.
-/

/-- Element types supported by dev_ptr.py (the dtype_map keys):
numpy f4, f8, c8, c16. -/
inductive Dtype where
  | f4 | f8 | c8 | c16
deriving DecidableEq, Repr

/-- Element size in bytes of each dtype (numpy itemsize). -/
def Dtype.itemsize : Dtype → Nat
  | .f4 => 4
  | .f8 => 8
  | .c8 => 8
  | .c16 => 16

/-- Python exceptions raised by the embedded code.  destinationTooSmall is the
ValueError raised by Device_Ptr.d2d; unsupportedRank is the ValueError or
TypeError raised by tuple unpacking in Device_Ptr.T on a non-2D shape;
typeError covers the TypeError paths (including the one raised by the
except clause of Devices.__init__). -/
inductive PyErr where
  | destinationTooSmall
  | unsupportedRank
  | typeError
  | indexError
deriving DecidableEq, Repr

/-- Non-fatal warnings emitted through warnings.warn in dev_ptr.py. -/
inductive Warn where
  | dtypeMismatch
  | shapeMismatch
  | nonContiguous
deriving DecidableEq, Repr

/-- Resolution of an optional byte count exactly as the Python line
nbytes = min([cap, nbytes or cap]) computes it: a request of None resolves
to cap via the or, and so does a request of 0 (Python 0 is falsy). -/
def resolveNBytes (cap : Nat) (req : Option Nat) : Nat :=
  min cap (match req with
           | none => cap
           | some n => if n = 0 then cap else n)

/-- Product of a shape tuple, the value reduce(mul, shape) computes on a
nonempty tuple. -/
def prodShape (shape : List Nat) : Nat := shape.foldr (· * ·) 1

namespace ByteLevel

/-- Device_Ptr of dev_ptr.py at byte granularity: the device allocation is a
list of bytes of length nbytes.  Fields shape, dtype, size, nbytes are the
attributes set by Device_Ptr.__init__; data models the bytes behind self.ptr.
The stream attribute and the fill argument are elided (fill delegates to
to_device / d2d, embedded below). -/
structure Device_Ptr where
  shape : List Nat
  dtype : Dtype
  size : Nat
  nbytes : Nat
  data : List Nat
deriving DecidableEq, Repr

/-- Well-formedness established by Device_Ptr.__init__: size is the element
count of the shape, nbytes = size * itemsize, and the allocation holds
exactly nbytes bytes. -/
def WF (p : Device_Ptr) : Prop :=
  p.size = prodShape p.shape ∧
  p.nbytes = p.size * p.dtype.itemsize ∧
  p.data.length = p.nbytes

instance (p : Device_Ptr) : Decidable (WF p) := by
  unfold WF; infer_instance

/-- Device_Ptr.__init__ on a nonempty shape tuple (reduce(mul, shape) raises
on an empty tuple and int(()) raises as well, so construction fails there).
mem models the uninitialized bytes returned by cu_malloc, truncated or
zero-padded to the allocation size so the handle is well-formed. -/
def init (shape : List Nat) (dtype : Dtype) (mem : List Nat) :
    Except PyErr Device_Ptr :=
  match shape with
  | [] => .error .typeError
  | _ =>
    let size := prodShape shape
    let nbytes := size * dtype.itemsize
    .ok { shape := shape
          dtype := dtype
          size := size
          nbytes := nbytes
          data := (mem ++ List.replicate nbytes 0).take nbytes }

/-- Modelled from the spec: cu_memcpy_d2d copies the first n bytes of the
source allocation over the first n bytes of the destination allocation
(spec section 6, device-to-device memcpy). -/
def cu_memcpy_d2d (src dst : List Nat) (n : Nat) : List Nat :=
  src.take n ++ dst.drop n

/-- Device_Ptr.d2d: resolves nbytes = min([src.nbytes, nbytes or src.nbytes]),
raises ValueError when the resolved count exceeds dst.nbytes, otherwise
copies.  Returns the updated destination handle. -/
def d2d (src dst : Device_Ptr) (req : Option Nat) : Except PyErr Device_Ptr :=
  let nbytes := resolveNBytes src.nbytes req
  if nbytes > dst.nbytes then
    .error .destinationTooSmall
  else
    .ok { dst with data := cu_memcpy_d2d src.data dst.data nbytes }

/-- Host buffer passed to to_host / to_device: its bytes and its
contiguity flags (C_CONTIGUOUS or F_CONTIGUOUS). -/
structure HostArr where
  data : List Nat
  contiguous : Bool
deriving DecidableEq, Repr

/-- check_contiguous of dev_ptr.py: warns (only) on a non-contiguous host
buffer. -/
def check_contiguous (arr : HostArr) : List Warn :=
  if arr.contiguous then [] else [.nonContiguous]

/-- Modelled from the spec: cu_memcpy_d2h writes the first n device bytes
over the first n bytes of the host buffer (spec section 6). -/
def cu_memcpy_d2h (dev host : List Nat) (n : Nat) : List Nat :=
  dev.take n ++ host.drop n

/-- Device_Ptr.to_host with a host array: nbytes = min([self.nbytes,
nbytes or self.nbytes]), warn if non-contiguous, copy.  Never raises.
Returns the warnings and the updated host buffer. -/
def to_host (p : Device_Ptr) (arr : HostArr) (req : Option Nat) :
    List Warn × HostArr :=
  let nbytes := resolveNBytes p.nbytes req
  (check_contiguous arr, { arr with data := cu_memcpy_d2h p.data arr.data nbytes })

/-- Device_Ptr.to_host with arr=None: allocates np.empty(shape, dtype)
(nbytes fresh bytes, contents modelled as zero) and copies the resolved
count into it.  Never raises. -/
def to_host_new (p : Device_Ptr) (req : Option Nat) : List Nat :=
  let nbytes := resolveNBytes p.nbytes req
  cu_memcpy_d2h p.data (List.replicate p.nbytes 0) nbytes

/-- Modelled from the spec: cu_memcpy_h2d writes the first n host bytes over
the first n bytes of the device allocation (spec section 6). -/
def cu_memcpy_h2d (host dev : List Nat) (n : Nat) : List Nat :=
  host.take n ++ dev.drop n

/-- Device_Ptr.to_device: nbytes = min([self.nbytes, nbytes or self.nbytes]),
warn if non-contiguous, copy host to device.  Never raises. -/
def to_device (p : Device_Ptr) (arr : HostArr) (req : Option Nat) :
    List Warn × Device_Ptr :=
  let nbytes := resolveNBytes p.nbytes req
  (check_contiguous arr, { p with data := cu_memcpy_h2d arr.data p.data nbytes })

/-- Modelled from the spec: cu_memset value v over the first n bytes
(spec section 6). -/
def cu_memset (dev : List Nat) (v n : Nat) : List Nat :=
  List.replicate (min n dev.length) v ++ dev.drop n

/-- Device_Ptr.zero: nbytes = min([self.nbytes, nbytes or self.nbytes]),
memset 0.  Never raises. -/
def zero (p : Device_Ptr) (req : Option Nat) : Device_Ptr :=
  let nbytes := resolveNBytes p.nbytes req
  { p with data := cu_memset p.data 0 nbytes }

/-- Transposed byte index: byte k of the transposed r x c element matrix with
itemsize s comes from byte tIdx s r c k of the original. -/
def tIdx (s r c k : Nat) : Nat :=
  ((k / s % r) * c + k / s / r) * s + k % s

/-- Modelled from the spec: cu_transpose repermutes the storage of an r x c
element matrix (itemsize s) into its transpose (spec sections 4.2 and 6). -/
def cu_transpose (s r c : Nat) (m : List Nat) : List Nat :=
  (List.range m.length).map fun k => m.getD (tIdx s r c k) 0

/-- Device_Ptr.T: unpacks nrows, ncols = self.shape (raising on any shape
that is not a 2-tuple, which the spec taxonomy names UnsupportedRank),
calls cu_transpose, and reverses the shape tuple. -/
def T (p : Device_Ptr) : Except PyErr Device_Ptr :=
  match p.shape with
  | [nrows, ncols] =>
    .ok { p with
          data := cu_transpose p.dtype.itemsize nrows ncols p.data
          shape := [ncols, nrows] }
  | _ => .error .unsupportedRank

end ByteLevel

namespace ElemLevel

/-- Element value: real and imaginary component, idealized as rationals.
Real dtypes carry a zero imaginary component. -/
abbrev Val : Type := ℚ × ℚ

def addVal (x y : Val) : Val := (x.1 + y.1, x.2 + y.2)

def subVal (x y : Val) : Val := (x.1 - y.1, x.2 - y.2)

def mulVal (x y : Val) : Val :=
  (x.1 * y.1 - x.2 * y.2, x.1 * y.2 + x.2 * y.1)

def divVal (x y : Val) : Val :=
  let d := y.1 * y.1 + y.2 * y.2
  ((x.1 * y.1 + x.2 * y.2) / d, (x.2 * y.1 - x.1 * y.2) / d)

/-- Complex conjugate of one element. -/
def conjVal (x : Val) : Val := (x.1, -x.2)

/-- Device_Ptr of dev_ptr.py at element granularity, used for the in-place
elementwise arithmetic and the conjugate: data models the allocation as
self.size elements behind self.ptr. -/
structure Device_Ptr where
  shape : List Nat
  dtype : Dtype
  size : Nat
  nbytes : Nat
  data : List Val
deriving DecidableEq

/-- Well-formedness established by Device_Ptr.__init__ at element
granularity. -/
def WF (p : Device_Ptr) : Prop :=
  p.size = prodShape p.shape ∧
  p.nbytes = p.size * p.dtype.itemsize ∧
  p.data.length = p.size

instance (p : Device_Ptr) : Decidable (WF p) := by
  unfold WF; infer_instance

/-- check_input of dev_ptr.py: one warning per mismatched attribute, the
operation is not aborted. -/
def check_input (a b : Device_Ptr) : List Warn :=
  (if a.dtype = b.dtype then [] else [.dtypeMismatch]) ++
  (if a.shape = b.shape then [] else [.shapeMismatch])

/-- Modelled from the spec: the cu_*_vec elementwise kernels combine the
first n elements of both operand vectors pointwise (spec section 6).
The kernel reads n elements from each pointer; when either allocation holds
fewer than n elements the read is out of bounds and the result is undefined
(none). -/
def vecKernel (f : Val → Val → Val) (a b : List Val) (n : Nat) :
    Option (List Val) :=
  if n ≤ a.length ∧ n ≤ b.length then
    some (List.zipWith f (a.take n) (b.take n) ++ a.drop n)
  else
    none

/-- Modelled from the spec: the cu_*_val kernels combine each of the first n
elements with one scalar (spec section 6). -/
def valKernel (f : Val → Val → Val) (a : List Val) (v : Val) (n : Nat) :
    Option (List Val) :=
  if n ≤ a.length then
    some ((a.take n).map (fun x => f x v) ++ a.drop n)
  else
    none

/-- Operand of the in-place dunder arithmetic: another Device_Ptr or a
Python scalar (int, float or complex). -/
inductive Operand where
  | handle (b : Device_Ptr)
  | scalar (v : Val)

/-- Shared shape of the four in-place dunder methods of dev_ptr.py
(iadd, isub, imul, itruediv): on a Device_Ptr operand, check_input then the
vec kernel over self.size elements; on a scalar, the val kernel over
self.size elements; anything else raises TypeError.  Returns the warnings
issued and the updated handle (none when the kernel read out of bounds). -/
def ipointwise (f : Val → Val → Val) (a : Device_Ptr) (b : Operand) :
    List Warn × Option Device_Ptr :=
  match b with
  | .handle b =>
    (check_input a b,
     (vecKernel f a.data b.data a.size).map (fun d => { a with data := d }))
  | .scalar v =>
    ([], (valKernel f a.data v a.size).map (fun d => { a with data := d }))

/-- Device_Ptr.__iadd__. -/
def iadd (a : Device_Ptr) (b : Operand) : List Warn × Option Device_Ptr :=
  ipointwise addVal a b

/-- Device_Ptr.__isub__. -/
def isub (a : Device_Ptr) (b : Operand) : List Warn × Option Device_Ptr :=
  ipointwise subVal a b

/-- Device_Ptr.__imul__. -/
def imul (a : Device_Ptr) (b : Operand) : List Warn × Option Device_Ptr :=
  ipointwise mulVal a b

/-- Device_Ptr.__itruediv__. -/
def idiv (a : Device_Ptr) (b : Operand) : List Warn × Option Device_Ptr :=
  ipointwise divVal a b

/-- Device_Ptr.conj.  The Python condition is
self.dtype == (np.dtype(c8) or np.dtype(c16)): the parenthesized or
evaluates to np.dtype(c8) (a truthy value), so the guard only admits c8.
On any other dtype the method falls through and returns None (modelled as
none), leaving the allocation untouched.  With inplace the handle is
conjugated in place; otherwise a fresh handle is filled from self (d2d)
and conjugated. -/
def conj (p : Device_Ptr) (inplace : Bool) : Option Device_Ptr :=
  if p.dtype = Dtype.c8 then
    if inplace then
      some { p with data := p.data.map conjVal }
    else
      some { p with data := p.data.map conjVal }
  else
    none

end ElemLevel

namespace Ctx

/-- Thread context stack: the top of the list is the thread-current
context, a context being a device id. -/
structure CtxState where
  stack : List Nat
deriving DecidableEq, Repr

/-- cuCtx.push: cu_context_push makes this context thread-current. -/
def push (c : Nat) (s : CtxState) : CtxState :=
  { stack := c :: s.stack }

/-- cuCtx.pop: cu_context_pop removes the thread-current context. -/
def pop (s : CtxState) : CtxState :=
  { stack := s.stack.tail }

/-- cuCtx.__call__ (the invoke wrapper): self.push(); tmp = method(*args);
self.pop(); return tmp.  There is no try/finally, so when the method raises
the exception propagates before pop runs and the context stays pushed.
The wrapped operation is modelled by its outcome (a result or a raised
exception). -/
def cuCtx_call (c : Nat) (s : CtxState) (op : Except PyErr Nat) :
    CtxState × Except PyErr Nat :=
  let s1 := push c s
  match op with
  | .ok a => (pop s1, .ok a)
  | .error e => (s1, .error e)

end Ctx

namespace Dev

/-- Observable driver events issued during Device teardown. -/
inductive Ev where
  | syncDevice
  | unpin (buf : Nat)
  | printNotFound
  | destroyStream (i : Nat)
  | destroyContext
  | indexError
deriving DecidableEq, Repr

/-- Device state relevant to teardown: the pinned-buffer registry (buffer
identities in registration order) and the owned streams (ids). -/
structure Device where
  pinned : List Nat
  streams : List Nat
deriving DecidableEq, Repr

/-- Device.host_unpin: scans self._pinned_arrs; the first entry identical to
arr is unpinned and removed and the scan stops; every non-matching entry
scanned before it prints a not-found message.  Returns the updated registry
and the events. -/
def host_unpin (pinned : List Nat) (arr : Nat) : List Nat × List Ev :=
  match pinned with
  | [] => ([], [])
  | x :: rest =>
    if x = arr then
      (rest, [.unpin arr])
    else
      let (rest2, evs) := host_unpin rest arr
      (x :: rest2, .printNotFound :: evs)

/-- Teardown unpin loop of Device.__exit__:
for i in range(len(self._pinned_arrs)): self.host_unpin(self._pinned_arrs[0]).
The iteration count is the length of the registry when the loop starts; each
iteration unpins the (current) first entry.  Indexing an empty registry
would raise IndexError. -/
def unpinLoop : Nat → List Nat → List Ev
  | 0, _ => []
  | n + 1, pinned =>
    match pinned with
    | [] => [.indexError]
    | x :: _ =>
      let (pinned2, evs) := host_unpin pinned x
      evs ++ unpinLoop n pinned2

/-- Device.__exit__: self.sync() (cu_sync_device), then the unpin loop over
the registered buffers, then self.context.__exit__() (cu_context_destroy).
No stream teardown appears in the method. -/
def device_exit (d : Device) : List Ev :=
  .syncDevice :: unpinLoop d.pinned.length d.pinned ++ [.destroyContext]

end Dev

namespace DevSet

/-- Constructor argument of Devices.__init__: one integer or a list. -/
inductive Arg where
  | single (n : Int)
  | seq (l : List Int)
deriving DecidableEq, Repr

/-- Devices.__init__: tries list(device_ids); when device_ids is a single
integer that raises TypeError, and the handler clause except device_ids:
names an integer instead of an exception class, which itself raises
TypeError.  n_streams is listified the same way but with a correct
except TypeError handler that broadcasts the scalar.  The Device list is
built with zip, which silently truncates to the shorter sequence.
Returns the (id, stream count) pairs the Devices would be built from. -/
def Devices_init (device_ids n_streams : Arg) :
    Except PyErr (List (Int × Int)) :=
  match device_ids with
  | .single _ => .error .typeError
  | .seq ids =>
    let ns := match n_streams with
              | .single k => List.replicate ids.length k
              | .seq m => m
    .ok (ids.zip ns)

end DevSet

/-- Resolution rule of the amended claims C3 and C10, written from the spec
side for comparison with the code's resolveNBytes: a request of None or of
zero resolves to the full capacity, any other request is clamped to the
capacity. -/
def claimResolve (cap : Nat) (req : Option Nat) : Nat :=
  match req with
  | none => cap
  | some 0 => cap
  | some n => min cap n

namespace ByteLevel

/-- State-changing operations available on a byte-level Device_Ptr after
construction (the handle being the destination of the operation). -/
inductive OpB where
  | opD2D (src : Device_Ptr) (req : Option Nat)
  | opToDevice (arr : HostArr) (req : Option Nat)
  | opToHost (arr : HostArr) (req : Option Nat)
  | opZero (req : Option Nat)
  | opT
deriving DecidableEq

/-- Effect of each byte-level operation on the handle (a raised exception
leaves the handle unchanged: both raising operations, d2d and T, raise
before mutating; to_host does not mutate the device allocation). -/
def stepB : OpB → Device_Ptr → Device_Ptr
  | .opD2D src req, p =>
    match d2d src p req with
    | .ok q => q
    | .error _ => p
  | .opToDevice arr req, p => (to_device p arr req).2
  | .opToHost _ _, p => p
  | .opZero req, p => zero p req
  | .opT, p =>
    match T p with
    | .ok q => q
    | .error _ => p

/-- Shape a byte-level operation leaves behind, written from the claim C9
side: only the transpose of a 2-tuple shape replaces the shape, by
reversing it. -/
def shapeAfterB (op : OpB) (s : List Nat) : List Nat :=
  match op, s with
  | .opT, [r, c] => [c, r]
  | .opT, s => s
  | _, s => s

end ByteLevel

namespace ElemLevel

/-- State-changing operations available on an element-level Device_Ptr
after construction. -/
inductive OpE where
  | opAdd (b : Operand)
  | opSub (b : Operand)
  | opMul (b : Operand)
  | opDiv (b : Operand)
  | opConj (inplace : Bool)

/-- Effect of each element-level operation on the handle (an undefined
kernel read and the conj fall-through leave the handle unchanged; conj
with inplace false returns a fresh handle and does not mutate self). -/
def stepE : OpE → Device_Ptr → Device_Ptr
  | .opAdd b, p => ((iadd p b).2).getD p
  | .opSub b, p => ((isub p b).2).getD p
  | .opMul b, p => ((imul p b).2).getD p
  | .opDiv b, p => ((idiv p b).2).getD p
  | .opConj ip, p =>
    if ip then (conj p ip).getD p else p

end ElemLevel

/-- Helper for claim C2: the teardown unpin loop of Device.__exit__, run for
as many iterations as the registry initially holds, unpins every registered
buffer in registration order and emits nothing else. -/
theorem unpinLoop_map (pinned : List Nat) :
    Dev.unpinLoop pinned.length pinned = pinned.map Dev.Ev.unpin := by
  induction pinned with
  | nil => rfl
  | cons x rest ih =>
    simp [Dev.unpinLoop, Dev.host_unpin, ih]

/-- Claim C1, counterexample: invoking an operation that raises through
cuCtx.__call__ on an initially empty thread context stack leaves the
context pushed: the stack ends as [7], not [] — the wrapper does not pop on
the exception path, so a single call can leave the stack unbalanced. -/
theorem C1_counterexample :
    (Ctx.cuCtx_call 7 ⟨[]⟩ (Except.error PyErr.typeError)).1.stack = [7] := by
  rfl

/-- Claim C1, amended: cuCtx.__call__ pushes the context, runs the
operation, and on normal return pops and hands the result back, leaving the
stack as it was; when the operation raises, the exception propagates with
the context still pushed (no pop runs), so the stack gains one entry. -/
theorem C1_ctx_call (c : Nat) (s : Ctx.CtxState) (op : Except PyErr Nat) :
    (Ctx.cuCtx_call c s op).2 = op ∧
    (Ctx.cuCtx_call c s op).1.stack =
      (match op with
       | .ok _ => s.stack
       | .error _ => c :: s.stack) := by
  cases op <;> exact ⟨rfl, rfl⟩

/-- Claim C2, counterexample: tearing down a Device that owns one Stream
(id 5) and no pinned buffers issues only a device synchronize followed by
the context destroy — no stream-destroy call appears, so teardown does not
destroy the Streams owned by the Device. -/
theorem C2_counterexample :
    Dev.device_exit { pinned := [], streams := [5] }
      = [Dev.Ev.syncDevice, Dev.Ev.destroyContext] := by
  rfl

/-- Claim C2, amended: Device.__exit__ performs, in order: synchronize the
device (which covers the default queue), then unpin every registered host
buffer in registration order, then destroy the Context.  Streams owned by
the Device are never explicitly destroyed. -/
theorem C2_device_exit (d : Dev.Device) :
    Dev.device_exit d =
      Dev.Ev.syncDevice :: d.pinned.map Dev.Ev.unpin ++ [Dev.Ev.destroyContext] := by
  unfold Dev.device_exit
  rw [unpinLoop_map]

/-- Claim C5: the guard of Device_Ptr.conj is
self.dtype == (np.dtype(c8) or np.dtype(c16)), whose parenthesized or
evaluates to np.dtype(c8), so a complex128 (c16) handle falls through: the
call is a no-op returning None rather than conjugating, contradicting the
method's own docstring and the spec.  On a c8 handle the conjugate is
applied as documented. -/
theorem C5_conj_c16_noop :
    ElemLevel.conj ⟨[1], Dtype.c16, 1, 16, [((3 : ℚ), (5 : ℚ))]⟩ true = none ∧
    ElemLevel.conj ⟨[1], Dtype.c8, 1, 8, [((3 : ℚ), (5 : ℚ))]⟩ true
      = some ⟨[1], Dtype.c8, 1, 8, [((3 : ℚ), (-5 : ℚ))]⟩ := by
  constructor
  · rfl
  · rfl

/-- Claim C8: constructing a Device Set from a single device id crashes:
list(device_ids) raises TypeError on an integer, and the handler clause
except device_ids: names that integer instead of an exception class, which
itself raises TypeError — even the documented default Devices() fails.
A scalar stream count does broadcast over a sequence of ids, but two
sequences of different lengths are silently truncated by zip to the shorter
(three ids with two stream counts yield two devices), not rejected. -/
theorem C8_devices_init :
    DevSet.Devices_init (.single 0) (.single 0) = .error .typeError ∧
    DevSet.Devices_init (.seq [0, 1, 2]) (.single 4)
      = .ok [(0, 4), (1, 4), (2, 4)] ∧
    DevSet.Devices_init (.seq [0, 1, 2]) (.seq [4, 4])
      = .ok [(0, 4), (1, 4)] := by
  exact ⟨rfl, rfl, rfl⟩

/-- Helper: the code's byte-count resolution min([cap, req or cap]) computes
exactly the amended-claim rule (None and 0 resolve to cap, anything else is
clamped to cap). -/
theorem resolve_eq_claim (cap : Nat) (req : Option Nat) :
    resolveNBytes cap req = claimResolve cap req := by
  unfold resolveNBytes claimResolve
  match req with
  | none => simp
  | some 0 => simp
  | some (n + 1) => simp

/-- Helper: the resolved byte count never exceeds the capacity. -/
theorem claimResolve_le (cap : Nat) (req : Option Nat) :
    claimResolve cap req ≤ cap := by
  unfold claimResolve
  match req with
  | none => exact Nat.le_refl cap
  | some 0 => exact Nat.le_refl cap
  | some (n + 1) => exact Nat.min_le_left cap (n + 1)

/-- Claim C3, counterexample: with an 8-byte source, a 4-byte destination
and byte_count = 0, the claim resolves the count to min(8, 0) = 0 ≤ 4 and
predicts a successful 0-byte copy, but the code treats the falsy 0 like
None (0 or src.nbytes is src.nbytes), resolves 8 > 4 and raises
DestinationTooSmall. -/
theorem C3_counterexample :
    ByteLevel.d2d ⟨[2], Dtype.f4, 2, 8, [1, 2, 3, 4, 5, 6, 7, 8]⟩
        ⟨[1], Dtype.f4, 1, 4, [0, 0, 0, 0]⟩ (some 0)
      = .error .destinationTooSmall ∧
    min (8 : Nat) 0 ≤ 4 := by
  exact ⟨rfl, by omega⟩

/-- Claim C3, amended: copy_device_to_device resolves the byte count to
min(src.nbytes, byte_count), where a byte_count of None or of zero resolves
to src.nbytes; it fails with DestinationTooSmall exactly when the resolved
count exceeds the destination's capacity, and otherwise overwrites the
first resolved bytes of dst with those of src. -/
theorem C3_d2d (src dst : ByteLevel.Device_Ptr) (req : Option Nat) :
    (ByteLevel.d2d src dst req = .error .destinationTooSmall ↔
      dst.nbytes < claimResolve src.nbytes req) ∧
    (claimResolve src.nbytes req ≤ dst.nbytes →
      ByteLevel.d2d src dst req =
        .ok { dst with data :=
                src.data.take (claimResolve src.nbytes req) ++
                dst.data.drop (claimResolve src.nbytes req) }) := by
  have hr := resolve_eq_claim src.nbytes req
  by_cases hlt : dst.nbytes < claimResolve src.nbytes req
  · refine ⟨?_, ?_⟩
    · simp [ByteLevel.d2d, hr, hlt]
    · intro hle; omega
  · refine ⟨?_, ?_⟩
    · simp [ByteLevel.d2d, ByteLevel.cu_memcpy_d2d, hr, hlt]
    · intro _
      simp [ByteLevel.d2d, ByteLevel.cu_memcpy_d2d, hr, hlt]

/-- Claim C3 witness: a full-size copy between two 4-byte handles succeeds
and transfers the source bytes. -/
theorem C3_witness :
    claimResolve (4 : Nat) none ≤ 4 ∧
    ByteLevel.d2d ⟨[1], Dtype.f4, 1, 4, [1, 2, 3, 4]⟩
        ⟨[1], Dtype.f4, 1, 4, [9, 9, 9, 9]⟩ none
      = .ok ⟨[1], Dtype.f4, 1, 4, [1, 2, 3, 4]⟩ := by
  refine ⟨by decide, ?_⟩
  exact (C3_d2d ⟨[1], Dtype.f4, 1, 4, [1, 2, 3, 4]⟩
    ⟨[1], Dtype.f4, 1, 4, [9, 9, 9, 9]⟩ none).2 (by decide)

/-- Claim C10, counterexample: zeroing with a requested byte count of 0 on a
4-byte allocation of ones sets all 4 bytes to zero: the code resolves the
falsy 0 like None (full size), whereas the claim's clamp
min(request, nbytes) = min(0, 4) = 0 would set no bytes. -/
theorem C10_counterexample :
    (ByteLevel.zero ⟨[1], Dtype.f4, 1, 4, [1, 1, 1, 1]⟩ (some 0)).data
      = [0, 0, 0, 0] ∧
    min (0 : Nat)
      (⟨[1], Dtype.f4, 1, 4, [1, 1, 1, 1]⟩ : ByteLevel.Device_Ptr).nbytes
      = 0 := by
  exact ⟨rfl, rfl⟩

/-- Claim C10, amended: the synchronous to_host (both with a caller buffer
and with a fresh one), to_device, and zero clamp the requested byte count to
min(request, nbytes), where a request of None or of zero resolves to nbytes;
an oversized request is silently truncated to the allocation size, the
operations have no raising path, and they only ever touch the first
resolved bytes of the destination — never bytes beyond the handle's
allocation. -/
theorem C10_clamp (p : ByteLevel.Device_Ptr) (arr : ByteLevel.HostArr)
    (req : Option Nat) (h : ByteLevel.WF p) :
    claimResolve p.nbytes req ≤ p.nbytes ∧
    (∀ n, req = some n → p.nbytes ≤ n → claimResolve p.nbytes req = p.nbytes) ∧
    (ByteLevel.to_host p arr req).2.data =
      p.data.take (claimResolve p.nbytes req) ++
        arr.data.drop (claimResolve p.nbytes req) ∧
    ByteLevel.to_host_new p req =
      p.data.take (claimResolve p.nbytes req) ++
        (List.replicate p.nbytes 0).drop (claimResolve p.nbytes req) ∧
    (ByteLevel.to_device p arr req).2.data =
      arr.data.take (claimResolve p.nbytes req) ++
        p.data.drop (claimResolve p.nbytes req) ∧
    (ByteLevel.zero p req).data =
      List.replicate (claimResolve p.nbytes req) 0 ++
        p.data.drop (claimResolve p.nbytes req) := by
  have hr := resolve_eq_claim p.nbytes req
  have hle := claimResolve_le p.nbytes req
  refine ⟨hle, ?_, ?_, ?_, ?_, ?_⟩
  · intro n hn hcap
    subst hn
    unfold claimResolve
    match n, hcap with
    | 0, _ => rfl
    | m + 1, hcap => simp [Nat.min_eq_left hcap]
  · simp [ByteLevel.to_host, ByteLevel.cu_memcpy_d2h, hr]
  · simp [ByteLevel.to_host_new, ByteLevel.cu_memcpy_d2h, hr]
  · simp [ByteLevel.to_device, ByteLevel.cu_memcpy_h2d, hr]
  · have hlen : p.data.length = p.nbytes := h.2.2
    simp [ByteLevel.zero, ByteLevel.cu_memset, hr, hlen,
      Nat.min_eq_left hle]

/-- Claim C10 witness: an oversized request (100 bytes against a 4-byte
handle) is truncated to the full allocation and zero sets exactly those
4 bytes. -/
theorem C10_witness :
    claimResolve (4 : Nat) (some 100) ≤ 4 ∧
    claimResolve (4 : Nat) (some 100) = 4 ∧
    (ByteLevel.zero ⟨[1], Dtype.f4, 1, 4, [7, 7, 7, 7]⟩ (some 100)).data
      = List.replicate 4 0 ++ List.drop 4 [7, 7, 7, 7] := by
  have h := C10_clamp ⟨[1], Dtype.f4, 1, 4, [7, 7, 7, 7]⟩
    ⟨[], true⟩ (some 100) (by decide)
  exact ⟨h.1, h.2.1 100 rfl (by decide), h.2.2.2.2.2⟩

/-- Helper for claim C6: behaviour of the shared in-place pointwise template
on two handles with mismatched dtype or shape: warnings are issued, nothing
is raised, and the kernel is driven over the destination extent self.size —
defined when the operand holds at least self.size elements, an out-of-range
read otherwise. -/
theorem ipointwise_mismatch (f : ElemLevel.Val → ElemLevel.Val → ElemLevel.Val)
    (a b : ElemLevel.Device_Ptr)
    (hm : a.dtype ≠ b.dtype ∨ a.shape ≠ b.shape)
    (ha : ElemLevel.WF a) (hb : ElemLevel.WF b) :
    (ElemLevel.ipointwise f a (.handle b)).1 ≠ [] ∧
    (a.size ≤ b.size →
      (ElemLevel.ipointwise f a (.handle b)).2 =
        some { a with data :=
          List.zipWith f (a.data.take a.size) (b.data.take a.size) ++
            a.data.drop a.size }) ∧
    (b.size < a.size →
      (ElemLevel.ipointwise f a (.handle b)).2 = none) := by
  have la := ha.2.2
  have lb := hb.2.2
  refine ⟨?_, ?_, ?_⟩
  · unfold ElemLevel.ipointwise ElemLevel.check_input
    rcases hm with h | h <;> simp [h]
  · intro hle
    unfold ElemLevel.ipointwise
    dsimp only
    unfold ElemLevel.vecKernel
    rw [if_pos (⟨by omega, by omega⟩ : a.size ≤ a.data.length ∧ a.size ≤ b.data.length)]
    rfl
  · intro hlt
    unfold ElemLevel.ipointwise
    dsimp only
    unfold ElemLevel.vecKernel
    rw [if_neg (by omega : ¬(a.size ≤ a.data.length ∧ a.size ≤ b.data.length))]
    rfl

/-- Claim C6, counterexample: adding a 1-element handle into a 2-element
handle of the same dtype warns about the shape mismatch but does not run
over the smaller extent (1 element): the code hands the kernel the
destination extent self.size = 2, a read past the end of the 1-element
operand (undefined, modelled none), whereas running over the smaller extent
would have produced the well-defined result shown. -/
theorem C6_counterexample :
    ElemLevel.iadd ⟨[2], Dtype.f4, 2, 8, [((1 : ℚ), (0 : ℚ)), ((2 : ℚ), (0 : ℚ))]⟩
        (.handle ⟨[1], Dtype.f4, 1, 4, [((5 : ℚ), (0 : ℚ))]⟩)
      = ([Warn.shapeMismatch], none) ∧
    ElemLevel.vecKernel ElemLevel.addVal
        [((1 : ℚ), (0 : ℚ)), ((2 : ℚ), (0 : ℚ))] [((5 : ℚ), (0 : ℚ))]
        (min 2 1)
      = some [((6 : ℚ), (0 : ℚ)), ((2 : ℚ), (0 : ℚ))] := by
  constructor
  · rfl
  · norm_num [ElemLevel.vecKernel, ElemLevel.addVal]

/-- Claim C6, amended: for two device Memory Handles whose element types or
shapes differ, each of the in-place add/subtract/multiply/divide operations
issues a non-fatal warning and still executes rather than raising, but runs
over the destination's extent (self.size) rather than the smaller of the two
extents: the update is well defined when the other operand holds at least
self.size elements, and is an out-of-range read of the operand (undefined
behaviour, modelled none) when the operand is smaller. -/
theorem C6_mismatch (a b : ElemLevel.Device_Ptr)
    (hm : a.dtype ≠ b.dtype ∨ a.shape ≠ b.shape)
    (ha : ElemLevel.WF a) (hb : ElemLevel.WF b) :
    ((ElemLevel.iadd a (.handle b)).1 ≠ [] ∧
      (a.size ≤ b.size →
        (ElemLevel.iadd a (.handle b)).2 =
          some { a with data :=
            List.zipWith ElemLevel.addVal (a.data.take a.size) (b.data.take a.size) ++
              a.data.drop a.size }) ∧
      (b.size < a.size → (ElemLevel.iadd a (.handle b)).2 = none)) ∧
    ((ElemLevel.isub a (.handle b)).1 ≠ [] ∧
      (a.size ≤ b.size →
        (ElemLevel.isub a (.handle b)).2 =
          some { a with data :=
            List.zipWith ElemLevel.subVal (a.data.take a.size) (b.data.take a.size) ++
              a.data.drop a.size }) ∧
      (b.size < a.size → (ElemLevel.isub a (.handle b)).2 = none)) ∧
    ((ElemLevel.imul a (.handle b)).1 ≠ [] ∧
      (a.size ≤ b.size →
        (ElemLevel.imul a (.handle b)).2 =
          some { a with data :=
            List.zipWith ElemLevel.mulVal (a.data.take a.size) (b.data.take a.size) ++
              a.data.drop a.size }) ∧
      (b.size < a.size → (ElemLevel.imul a (.handle b)).2 = none)) ∧
    ((ElemLevel.idiv a (.handle b)).1 ≠ [] ∧
      (a.size ≤ b.size →
        (ElemLevel.idiv a (.handle b)).2 =
          some { a with data :=
            List.zipWith ElemLevel.divVal (a.data.take a.size) (b.data.take a.size) ++
              a.data.drop a.size }) ∧
      (b.size < a.size → (ElemLevel.idiv a (.handle b)).2 = none)) := by
  exact ⟨ipointwise_mismatch ElemLevel.addVal a b hm ha hb,
         ipointwise_mismatch ElemLevel.subVal a b hm ha hb,
         ipointwise_mismatch ElemLevel.mulVal a b hm ha hb,
         ipointwise_mismatch ElemLevel.divVal a b hm ha hb⟩

/-- Claim C6 witness: a 1-element f4 handle added in place with a 2-element
f4 operand (shape mismatch, operand at least as large): a warning is issued
and the addition still runs over the destination extent. -/
theorem C6_witness :
    ((⟨[1], Dtype.f4, 1, 4, [((1 : ℚ), (0 : ℚ))]⟩ : ElemLevel.Device_Ptr).dtype ≠
        (⟨[2], Dtype.f4, 2, 8, [((5 : ℚ), (0 : ℚ)), ((6 : ℚ), (0 : ℚ))]⟩ :
          ElemLevel.Device_Ptr).dtype ∨
      (⟨[1], Dtype.f4, 1, 4, [((1 : ℚ), (0 : ℚ))]⟩ : ElemLevel.Device_Ptr).shape ≠
        (⟨[2], Dtype.f4, 2, 8, [((5 : ℚ), (0 : ℚ)), ((6 : ℚ), (0 : ℚ))]⟩ :
          ElemLevel.Device_Ptr).shape) ∧
    (ElemLevel.iadd ⟨[1], Dtype.f4, 1, 4, [((1 : ℚ), (0 : ℚ))]⟩
        (.handle ⟨[2], Dtype.f4, 2, 8, [((5 : ℚ), (0 : ℚ)), ((6 : ℚ), (0 : ℚ))]⟩)).1
      ≠ [] ∧
    (ElemLevel.iadd ⟨[1], Dtype.f4, 1, 4, [((1 : ℚ), (0 : ℚ))]⟩
        (.handle ⟨[2], Dtype.f4, 2, 8, [((5 : ℚ), (0 : ℚ)), ((6 : ℚ), (0 : ℚ))]⟩)).2
      = some { (⟨[1], Dtype.f4, 1, 4, [((1 : ℚ), (0 : ℚ))]⟩ : ElemLevel.Device_Ptr) with
          data :=
            List.zipWith ElemLevel.addVal (List.take 1 [((1 : ℚ), (0 : ℚ))]) (List.take 1 [((5 : ℚ), (0 : ℚ)), ((6 : ℚ), (0 : ℚ))]) ++
              List.drop 1 [((1 : ℚ), (0 : ℚ))] } := by
  have h := C6_mismatch ⟨[1], Dtype.f4, 1, 4, [((1 : ℚ), (0 : ℚ))]⟩
    ⟨[2], Dtype.f4, 2, 8, [((5 : ℚ), (0 : ℚ)), ((6 : ℚ), (0 : ℚ))]⟩
    (Or.inr (by simp)) (by decide) (by decide)
  exact ⟨Or.inr (by simp), h.1.1, h.1.2.1 (by simp)⟩

/-- Helper for claim C7: pointwise complex addition followed by pointwise
complex subtraction of the same vector is the identity on vectors of equal
length. -/
theorem zipWith_add_sub (l m : List ElemLevel.Val) (h : l.length = m.length) :
    List.zipWith ElemLevel.subVal (List.zipWith ElemLevel.addVal l m) m = l := by
  induction l generalizing m with
  | nil => simp
  | cons x l ih =>
    cases m with
    | nil => simp at h
    | cons y m =>
      simp only [List.zipWith]
      rw [ih m (by simpa using h)]
      simp [ElemLevel.addVal, ElemLevel.subVal]

/-- Claim C7: for two handles of equal shape and equal element type,
in-place addition of B into A followed by in-place subtraction of B
restores A exactly (both kernel runs are defined, no warning path is
relevant, and the round-trip returns the original handle). -/
theorem C7_roundtrip (a b : ElemLevel.Device_Ptr)
    (hsh : a.shape = b.shape) (_hdt : a.dtype = b.dtype)
    (ha : ElemLevel.WF a) (hb : ElemLevel.WF b) :
    ∃ a1, (ElemLevel.iadd a (.handle b)).2 = some a1 ∧
          (ElemLevel.isub a1 (.handle b)).2 = some a := by
  have hsz : a.size = b.size := by rw [ha.1, hb.1, hsh]
  have la := ha.2.2
  have lb := hb.2.2
  have hlen : a.data.length = b.data.length := by omega
  refine ⟨{ a with data := List.zipWith ElemLevel.addVal a.data b.data }, ?_, ?_⟩
  · unfold ElemLevel.iadd ElemLevel.ipointwise
    dsimp only
    unfold ElemLevel.vecKernel
    rw [if_pos (⟨by omega, by omega⟩ : a.size ≤ a.data.length ∧ a.size ≤ b.data.length)]
    rw [List.take_of_length_le (by omega), List.take_of_length_le (by omega),
        List.drop_eq_nil_of_le (by omega)]
    simp
  · unfold ElemLevel.isub ElemLevel.ipointwise
    dsimp only
    unfold ElemLevel.vecKernel
    have lzip : (List.zipWith ElemLevel.addVal a.data b.data).length = a.size := by
      simp [List.length_zipWith]; omega
    rw [if_pos (⟨by simp [lzip], by omega⟩ :
      a.size ≤ (List.zipWith ElemLevel.addVal a.data b.data).length ∧
        a.size ≤ b.data.length)]
    rw [List.take_of_length_le (by simp [lzip]), List.take_of_length_le (by omega),
        List.drop_eq_nil_of_le (by simp [lzip])]
    rw [zipWith_add_sub a.data b.data hlen]
    simp

/-- Claim C7 witness: the round-trip on two concrete 2-element f4 handles. -/
theorem C7_witness :
    ∃ a1, (ElemLevel.iadd
            ⟨[2], Dtype.f4, 2, 8, [((1 : ℚ), (0 : ℚ)), ((2 : ℚ), (0 : ℚ))]⟩
            (.handle ⟨[2], Dtype.f4, 2, 8,
              [((10 : ℚ), (0 : ℚ)), ((20 : ℚ), (0 : ℚ))]⟩)).2 = some a1 ∧
          (ElemLevel.isub a1
            (.handle ⟨[2], Dtype.f4, 2, 8,
              [((10 : ℚ), (0 : ℚ)), ((20 : ℚ), (0 : ℚ))]⟩)).2
            = some ⟨[2], Dtype.f4, 2, 8, [((1 : ℚ), (0 : ℚ)), ((2 : ℚ), (0 : ℚ))]⟩ := by
  exact C7_roundtrip
    ⟨[2], Dtype.f4, 2, 8, [((1 : ℚ), (0 : ℚ)), ((2 : ℚ), (0 : ℚ))]⟩
    ⟨[2], Dtype.f4, 2, 8, [((10 : ℚ), (0 : ℚ)), ((20 : ℚ), (0 : ℚ))]⟩
    rfl rfl (by decide) (by decide)

/-- Every element size is positive. -/
theorem Dtype.itemsize_pos (d : Dtype) : 0 < d.itemsize := by
  cases d <;> decide

/-- Helper for claim C4: reading the transposed storage at an in-range index
is the lookup function applied to that index. -/
theorem getD_map_range (f : Nat → Nat) (n k : Nat) (hk : k < n) :
    ((List.range n).map f).getD k 0 = f k := by
  rw [List.getD_eq_getElem?_getD, List.getElem?_map, List.getElem?_range hk]
  rfl

/-- Helper for claim C4: the transposed-byte index map sends byte o of
element (i, j) of the transposed c x r matrix to byte o of element (j, i)
of the original r x c matrix. -/
theorem tIdx_apply (s r c i j o : Nat) (hs : 0 < s) (hj : j < r) (ho : o < s) :
    ByteLevel.tIdx s r c ((i * r + j) * s + o) = (j * c + i) * s + o := by
  unfold ByteLevel.tIdx
  have hr : 0 < r := by omega
  have h1 : (i * r + j) * s + o = s * (i * r + j) + o := by ring
  rw [h1, Nat.mul_add_div hs, Nat.mul_add_mod, Nat.div_eq_of_lt ho,
      Nat.mod_eq_of_lt ho, Nat.add_zero]
  have h2 : i * r + j = r * i + j := by ring
  rw [h2, Nat.mul_add_div hr, Nat.mul_add_mod, Nat.div_eq_of_lt hj,
      Nat.mod_eq_of_lt hj, Nat.add_zero]

/-- Claim C4: transpose on an exactly 2-dimensional handle succeeds,
reverses the shape tuple, keeps the size and byte size, and repermutes
storage so that byte o of element (i, j) of the result is byte o of element
(j, i) of the original; on a handle of any other rank (1-D, 3-D, ...)
it fails with UnsupportedRank. -/
theorem C4_transpose :
    (∀ (p : ByteLevel.Device_Ptr) (r c : Nat), p.shape = [r, c] →
      ByteLevel.WF p →
      ∃ q, ByteLevel.T p = .ok q ∧ q.shape = [c, r] ∧ q.dtype = p.dtype ∧
        q.size = p.size ∧ q.nbytes = p.nbytes ∧
        q.data.length = p.data.length ∧
        ∀ i j o, i < c → j < r → o < p.dtype.itemsize →
          q.data.getD ((i * r + j) * p.dtype.itemsize + o) 0 =
            p.data.getD ((j * c + i) * p.dtype.itemsize + o) 0) ∧
    (∀ p : ByteLevel.Device_Ptr, p.shape.length ≠ 2 →
      ByteLevel.T p = .error .unsupportedRank) := by
  constructor
  · intro p r c h hw
    have hT : ByteLevel.T p =
        .ok { p with
              data := ByteLevel.cu_transpose p.dtype.itemsize r c p.data
              shape := [c, r] } := by
      unfold ByteLevel.T
      rw [h]
    refine ⟨_, hT, rfl, rfl, rfl, rfl, ?_, ?_⟩
    · simp [ByteLevel.cu_transpose]
    intro i j o hi hj ho
    have hs := Dtype.itemsize_pos p.dtype
    have hsz : p.size = r * c := by
      rw [hw.1, h]; simp [prodShape]
    have hm : p.data.length = r * c * p.dtype.itemsize := by
      rw [hw.2.2, hw.2.1, hsz]
    have h5 : i * r + j + 1 ≤ r * c := by nlinarith
    have hk : (i * r + j) * p.dtype.itemsize + o < p.data.length := by
      rw [hm]
      calc (i * r + j) * p.dtype.itemsize + o
          < (i * r + j + 1) * p.dtype.itemsize := by
            have : (i * r + j + 1) * p.dtype.itemsize
                = (i * r + j) * p.dtype.itemsize + p.dtype.itemsize := by ring
            omega
        _ ≤ (r * c) * p.dtype.itemsize := Nat.mul_le_mul_right _ h5
    show (ByteLevel.cu_transpose p.dtype.itemsize r c p.data).getD _ 0 = _
    unfold ByteLevel.cu_transpose
    rw [getD_map_range _ _ _ hk, tIdx_apply _ _ _ _ _ _ hs hj ho]
  · intro p hlen
    unfold ByteLevel.T
    match hp : p.shape with
    | [] => rfl
    | [_] => rfl
    | _ :: _ :: _ :: _ => rfl
    | [a, b] => rw [hp] at hlen; simp at hlen

/-- Claim C4 witness: transposing a concrete 1 x 2 f4 handle reverses the
shape to 2 x 1 and swaps the two 4-byte elements; transposing a 1-D handle
fails with UnsupportedRank. -/
theorem C4_witness :
    (∃ q, ByteLevel.T ⟨[1, 2], Dtype.f4, 2, 8, [1, 2, 3, 4, 5, 6, 7, 8]⟩
        = .ok q ∧ q.shape = [2, 1] ∧
        q.data.getD ((0 * 1 + 0) * 4 + 0) 0
          = List.getD [1, 2, 3, 4, 5, 6, 7, 8] ((0 * 2 + 0) * 4 + 0) 0 ∧
        q.data.getD ((1 * 1 + 0) * 4 + 0) 0
          = List.getD [1, 2, 3, 4, 5, 6, 7, 8] ((0 * 2 + 1) * 4 + 0) 0) ∧
    ByteLevel.T ⟨[3], Dtype.f4, 3, 12, [0, 0, 0, 0, 0, 0, 0, 0, 0, 0, 0, 0]⟩
      = .error .unsupportedRank := by
  constructor
  · obtain ⟨q, h1, h2, _, _, _, _, h7⟩ :=
      C4_transpose.1 ⟨[1, 2], Dtype.f4, 2, 8, [1, 2, 3, 4, 5, 6, 7, 8]⟩ 1 2
        rfl (by decide)
    exact ⟨q, h1, h2, h7 0 0 0 (by decide) (by decide) (by decide),
           h7 1 0 0 (by decide) (by decide) (by decide)⟩
  · exact C4_transpose.2 ⟨[3], Dtype.f4, 3, 12, [0,0,0,0,0,0,0,0,0,0,0,0]⟩
      (by decide)

/-- Helper for claim C9: the record rebuilt by the elementwise operations
keeps every field but data, whichever way the kernel turned out. -/
theorem stepE_fields (q : ElemLevel.Device_Ptr)
    (o : Option (List ElemLevel.Val)) :
    ((o.map (fun d => { q with data := d })).getD q).nbytes = q.nbytes ∧
    ((o.map (fun d => { q with data := d })).getD q).size = q.size ∧
    ((o.map (fun d => { q with data := d })).getD q).shape = q.shape := by
  cases o <;> exact ⟨rfl, rfl, rfl⟩

/-- Claim C9: no operation after construction changes a handle's byte size
(nor its size or dtype); the shape is changed only by the transpose of a
2-tuple shape, which reverses it, and the reversed shape has the same
element count; and construction establishes byte size = element count times
element size. -/
theorem C9_invariants :
    (∀ (op : ByteLevel.OpB) (p : ByteLevel.Device_Ptr),
      (ByteLevel.stepB op p).nbytes = p.nbytes ∧
      (ByteLevel.stepB op p).size = p.size ∧
      (ByteLevel.stepB op p).dtype = p.dtype ∧
      (ByteLevel.stepB op p).shape = ByteLevel.shapeAfterB op p.shape ∧
      prodShape (ByteLevel.shapeAfterB op p.shape) = prodShape p.shape) ∧
    (∀ (op : ElemLevel.OpE) (q : ElemLevel.Device_Ptr),
      (ElemLevel.stepE op q).nbytes = q.nbytes ∧
      (ElemLevel.stepE op q).size = q.size ∧
      (ElemLevel.stepE op q).shape = q.shape) ∧
    (∀ (shape : List Nat) (dtype : Dtype) (mem : List Nat)
        (p0 : ByteLevel.Device_Ptr),
      ByteLevel.init shape dtype mem = .ok p0 →
      p0.nbytes = prodShape shape * dtype.itemsize ∧ p0.shape = shape) := by
  refine ⟨?_, ?_, ?_⟩
  · intro op p
    cases op with
    | opD2D src req =>
      by_cases hc : resolveNBytes src.nbytes req > p.nbytes <;>
        simp [ByteLevel.stepB, ByteLevel.d2d, hc, ByteLevel.shapeAfterB]
    | opToDevice arr req =>
      simp [ByteLevel.stepB, ByteLevel.to_device, ByteLevel.shapeAfterB]
    | opToHost arr req =>
      simp [ByteLevel.stepB, ByteLevel.shapeAfterB]
    | opZero req =>
      simp [ByteLevel.stepB, ByteLevel.zero, ByteLevel.shapeAfterB]
    | opT =>
      rcases hp : p.shape with _ | ⟨r, _ | ⟨c, _ | ⟨d, tl⟩⟩⟩ <;>
        simp [ByteLevel.stepB, ByteLevel.T, ByteLevel.shapeAfterB, hp,
          prodShape] <;> ring
  · intro op q
    cases op with
    | opAdd b =>
      cases b <;>
        exact stepE_fields q _
    | opSub b =>
      cases b <;>
        exact stepE_fields q _
    | opMul b =>
      cases b <;>
        exact stepE_fields q _
    | opDiv b =>
      cases b <;>
        exact stepE_fields q _
    | opConj ip =>
      cases ip with
      | false => exact ⟨rfl, rfl, rfl⟩
      | true =>
        by_cases hdt : q.dtype = Dtype.c8 <;>
          simp [ElemLevel.stepE, ElemLevel.conj, hdt]
  · intro shape dtype mem p0 h
    cases shape with
    | nil => simp [ByteLevel.init] at h
    | cons x t =>
      simp only [ByteLevel.init] at h
      cases h
      exact ⟨rfl, rfl⟩

/-- Claim C9 witness: constructing a 2-element f4 handle yields byte size
2 * 4 = 8 and keeps the requested shape. -/
theorem C9_witness :
    ∃ p0, ByteLevel.init [2] Dtype.f4 [] = .ok p0 ∧
      p0.nbytes = prodShape [2] * Dtype.f4.itemsize ∧ p0.shape = [2] := by
  refine ⟨⟨[2], Dtype.f4, 2, 8, List.replicate 8 0⟩, rfl, ?_⟩
  exact C9_invariants.2.2 [2] Dtype.f4 [] _ rfl
